import Mathlib

/-!
Shallow embedding of the FireBlog single-page application (`src/App.js`):
the subscription-synchronization core (auth effect, profile listener, posts
and comments listeners), the event handlers, and the view dispatcher.

Machine data is embedded as follows: Firestore timestamps become records of
integer seconds/nanoseconds; document snapshots become lists of
(id, fields) records; React state updates become functions on an explicit
`AppState`; asynchronous write outcomes become an `Except String Unit`
parameter; effect setup/teardown becomes an explicit transition emitting an
ordered event list.
-/

namespace FireBlog

/-- A Firestore server timestamp as seen by the client: `seconds` and
`nanoseconds` components (`App.js` only ever reads `.seconds`). -/
structure Timestamp where
  seconds : Int
  nanoseconds : Int
deriving Repr, DecidableEq

/-- The sort key `x.createdAt?.seconds || 0` from `App.js` lines 372 and
397: a missing `createdAt` contributes `0`; `seconds = 0` is falsy in JS
and also yields `0`, which coincides with the stored value. -/
def tsKey : Option Timestamp → Int
  | none => 0
  | some t => t.seconds

/-- Fields of a post document, as written by `handleCreatePost`
(`App.js` lines 473-479): title, content, authorId, authorName, createdAt.
`createdAt` is `none` while the server timestamp is still pending. -/
structure PostFields where
  title : String
  content : String
  authorId : String
  authorName : String
  createdAt : Option Timestamp
deriving Repr, DecidableEq

/-- A post document inside a collection snapshot: store-assigned id plus
fields (`doc.id` / `doc.data()`). -/
structure PostDoc where
  docId : String
  fields : PostFields
deriving Repr, DecidableEq

/-- A materialized post, `{ id: doc.id, ...doc.data() }`
(`App.js` line 370). -/
structure Post where
  id : String
  title : String
  content : String
  authorId : String
  authorName : String
  createdAt : Option Timestamp
deriving Repr, DecidableEq

/-- Materialization `{ id: doc.id, ...doc.data() }` for a post document. -/
def materializePost (d : PostDoc) : Post :=
  { id := d.docId
    title := d.fields.title
    content := d.fields.content
    authorId := d.fields.authorId
    authorName := d.fields.authorName
    createdAt := d.fields.createdAt }

/-- Fields of a comment document, as written by `handleAddComment`
(`App.js` lines 493-498). -/
structure CommentFields where
  text : String
  authorId : String
  authorName : String
  createdAt : Option Timestamp
deriving Repr, DecidableEq

/-- A comment document inside a collection snapshot. -/
structure CommentDoc where
  docId : String
  fields : CommentFields
deriving Repr, DecidableEq

/-- A materialized comment, `{ id: doc.id, ...doc.data() }`
(`App.js` line 395). -/
structure Comment where
  id : String
  text : String
  authorId : String
  authorName : String
  createdAt : Option Timestamp
deriving Repr, DecidableEq

/-- Materialization `{ id: doc.id, ...doc.data() }` for a comment
document. -/
def materializeComment (d : CommentDoc) : Comment :=
  { id := d.docId
    text := d.fields.text
    authorId := d.fields.authorId
    authorName := d.fields.authorName
    createdAt := d.fields.createdAt }

/-- Comparator relation of the posts sort
`(a, b) => (b.createdAt?.seconds || 0) - (a.createdAt?.seconds || 0)`
(`App.js` line 372): `a` may precede `b` when the key of `a` is at least
the key of `b` (descending). -/
def postDescR (a b : Post) : Prop := tsKey b.createdAt ≤ tsKey a.createdAt

instance : DecidableRel postDescR := fun a b =>
  inferInstanceAs (Decidable (tsKey b.createdAt ≤ tsKey a.createdAt))

instance : IsTotal Post postDescR := ⟨fun _ _ => Int.le_total _ _⟩

instance : IsTrans Post postDescR :=
  ⟨fun _ _ _ h1 h2 => le_trans h2 h1⟩

/-- Comparator relation of the comments sort
`(a, b) => (a.createdAt?.seconds || 0) - (b.createdAt?.seconds || 0)`
(`App.js` line 397): ascending by key. -/
def commentAscR (a b : Comment) : Prop := tsKey a.createdAt ≤ tsKey b.createdAt

instance : DecidableRel commentAscR := fun a b =>
  inferInstanceAs (Decidable (tsKey a.createdAt ≤ tsKey b.createdAt))

instance : IsTotal Comment commentAscR := ⟨fun _ _ => Int.le_total _ _⟩

instance : IsTrans Comment commentAscR :=
  ⟨fun _ _ _ h1 h2 => le_trans h1 h2⟩

/-- `postsData.sort(...)` — JS `Array.prototype.sort` is a stable sort;
insertion sort with the descending comparator models it. -/
def sortPostsDesc (l : List Post) : List Post := l.insertionSort postDescR

/-- `commentsData.sort(...)` — stable sort, ascending comparator. -/
def sortCommentsAsc (l : List Comment) : List Comment := l.insertionSort commentAscR

/-- The user record handed to `onAuthStateChanged` by the auth backend:
uid, optional display name and email (JS `null` becomes `none`), and the
anonymous flag. -/
structure UserRec where
  uid : String
  displayName : Option String
  email : Option String
  isAnonymous : Bool
deriving Repr, DecidableEq

/-- Fields of a user profile document (`displayName`, nullable `email`). -/
structure ProfileDoc where
  displayName : String
  email : Option String
deriving Repr, DecidableEq

/-- The application state held in the `useState` hooks of `App`
(`App.js` lines 306-317). `view` is the raw string (`HOME`,
`POST_DETAIL`, `PROFILE`). -/
structure AppState where
  user : Option UserRec
  userData : Option ProfileDoc
  isAuthReady : Bool
  view : String
  selectedPostId : Option String
  posts : List Post
  comments : List Comment
  loading : Bool
  error : Option String
deriving Repr, DecidableEq

/-- An observable subscription-lifecycle event of a collection listener
effect: cancelling the listener on a post id, or establishing one. -/
inductive SubEvent where
  | cancel (postId : String)
  | subscribe (postId : String)
deriving Repr, DecidableEq

/-- True exactly on `cancel` events. -/
def isCancelEvent : SubEvent → Bool
  | SubEvent.cancel _ => true
  | SubEvent.subscribe _ => false

/-- True exactly on `subscribe` events. -/
def isSubscribeEvent : SubEvent → Bool
  | SubEvent.cancel _ => false
  | SubEvent.subscribe _ => true

/-- Success callback of the posts `onSnapshot` listener
(`App.js` lines 369-374): materialize every document, sort descending by
`createdAt` seconds, replace the whole list, stop loading. -/
def onPostsSnapshot (snap : List PostDoc) (s : AppState) : AppState :=
  { s with posts := sortPostsDesc (snap.map materializePost), loading := false }

/-- Error callback of the posts `onSnapshot` listener
(`App.js` lines 375-379): set the error message, stop loading, touch
nothing else; the emitted subscription-event list records that the body
issues no re-subscription (no retry). -/
def onPostsError (s : AppState) : AppState × List SubEvent :=
  ({ s with error := some "Failed to load posts.", loading := false }, [])

/-- Success callback of the comments `onSnapshot` listener
(`App.js` lines 394-399): materialize, sort ascending, replace, stop
loading. -/
def onCommentsSnapshot (snap : List CommentDoc) (s : AppState) : AppState :=
  { s with comments := sortCommentsAsc (snap.map materializeComment), loading := false }

/-- Body of the comments `useEffect` (`App.js` lines 385-407, minus the
cleanup): with auth ready and a selected post, start loading and subscribe
to that post; otherwise clear the comment list and register no
subscription. Returns the new active-subscription slot, the new state, and
the emitted events. -/
def commentsEffectBody (isAuthReady : Bool) (selectedPostId : Option String)
    (s : AppState) : Option String × AppState × List SubEvent :=
  match isAuthReady, selectedPostId with
  | true, some pid =>
      (some pid, { s with loading := true }, [SubEvent.subscribe pid])
  | _, _ => (none, { s with comments := [] }, [])

/-- A re-run of the comments effect under React semantics: the cleanup of
the previous run fires first (unsubscribing exactly when that run had
subscribed, `App.js` line 406), then the new body executes. `prevSub` is
the subscription slot left by the previous run. -/
def runCommentsEffect (prevSub : Option String) (isAuthReady : Bool)
    (selectedPostId : Option String) (s : AppState) :
    Option String × AppState × List SubEvent :=
  let cleanup : List SubEvent :=
    match prevSub with
    | some k => [SubEvent.cancel k]
    | none => []
  let r := commentsEffectBody isAuthReady selectedPostId s
  (r.1, r.2.1, cleanup ++ r.2.2)

/-- `handleNavigate` (`App.js` lines 442-448): clear the error, null the
selected post when navigating Home, set the view. -/
def handleNavigate (targetView : String) (s : AppState) : AppState :=
  let s1 := { s with error := none }
  if targetView = "HOME" then
    { s1 with selectedPostId := none, view := targetView }
  else
    { s1 with view := targetView }

/-- `handleSelectPost` (`App.js` lines 450-453). -/
def handleSelectPost (postId : String) (s : AppState) : AppState :=
  { s with selectedPostId := some postId, view := "POST_DETAIL" }

/-- An observable auth-flow event: the custom-token exchange (with its
outcome), an anonymous sign-in, the backend sign-out call, and the
`setIsAuthReady(true)` state update. -/
inductive AuthEvent where
  | signInToken (ok : Bool)
  | signInAnon
  | signOutCall
  | setAuthReady
deriving Repr, DecidableEq

/-- The `onAuthStateChanged` callback (`App.js` lines 322-338) with the
asynchronous token-exchange outcome made explicit: an existing user is
adopted; otherwise a bootstrap token is exchanged, falling back to an
anonymous sign-in on failure (the failure is only logged, never stored in
`error`); with no token, sign in anonymously; in every branch
`setIsAuthReady(true)` runs last. -/
def authCallback (initialAuthToken : Option String) (tokenExchangeOk : Bool)
    (maybeUser : Option UserRec) (s : AppState) : AppState × List AuthEvent :=
  match maybeUser with
  | some u =>
      ({ s with user := some u, isAuthReady := true }, [AuthEvent.setAuthReady])
  | none =>
      match initialAuthToken with
      | some _ =>
          if tokenExchangeOk then
            ({ s with isAuthReady := true },
              [AuthEvent.signInToken true, AuthEvent.setAuthReady])
          else
            ({ s with isAuthReady := true },
              [AuthEvent.signInToken false, AuthEvent.signInAnon,
                AuthEvent.setAuthReady])
      | none =>
          ({ s with isAuthReady := true },
            [AuthEvent.signInAnon, AuthEvent.setAuthReady])

/-- `handleSignOut` (`App.js` lines 433-440): sign out at the backend,
null the user, clear the profile, go Home, then sign in anonymously
again. -/
def handleSignOut (s : AppState) : AppState × List AuthEvent :=
  ({ s with user := none, userData := none, view := "HOME" },
    [AuthEvent.signOutCall, AuthEvent.signInAnon])

/-- `handleSignOut` followed by the auth-state callback firing with the
fresh anonymous user produced by `signInAnonymously`. -/
def handleSignOutAndSettle (tok : Option String) (ok : Bool)
    (anonUser : UserRec) (s : AppState) : AppState :=
  (authCallback tok ok (some anonUser) (handleSignOut s).1).1

/-- A field value inside a Firestore write payload: a string, or an
explicit JS `null`. -/
inductive FieldValue where
  | str (s : String)
  | null
deriving Repr, DecidableEq

/-- JS `x || d` on a nullable string: `null`/`undefined` and the empty
string are falsy and yield the default. -/
def jsOrDefault (x : Option String) (d : String) : String :=
  match x with
  | none => d
  | some v => if v = "" then d else v

/-- Payload of the default-profile merge write issued when the profile
document is absent (`App.js` lines 351-354):
`{ displayName: user.displayName || "Anonymous User", email: user.email }`.
The `email` key is always part of the object literal; its value is JS
`null` for a user without an email. -/
def defaultProfilePayload (u : UserRec) : List (String × FieldValue) :=
  [("displayName", FieldValue.str (jsOrDefault u.displayName "Anonymous User")),
   ("email", match u.email with
     | some e => FieldValue.str e
     | none => FieldValue.null)]

/-- A snapshot of the profile document: present with fields, or absent. -/
inductive DocSnap where
  | present (fields : ProfileDoc)
  | missing
deriving Repr, DecidableEq

/-- A merge write issued to the store: target uid and payload. -/
structure MergeWrite where
  uid : String
  payload : List (String × FieldValue)
deriving Repr, DecidableEq

/-- Callback of the user-document `onSnapshot` listener
(`App.js` lines 346-356): an existing document replaces the local
`userData`; an absent document triggers a default-profile merge write and
leaves the local state alone. -/
def onUserDocSnapshot (u : UserRec) (snap : DocSnap) (s : AppState) :
    AppState × Option MergeWrite :=
  match snap with
  | DocSnap.present f => ({ s with userData := some f }, none)
  | DocSnap.missing => (s, some ⟨u.uid, defaultProfilePayload u⟩)

/-- Local form state of `ProfileView` (`App.js` lines 216-219): the
display-name input and the post-compose title/content inputs. -/
structure ProfileFormState where
  displayName : String
  postTitle : String
  postContent : String
deriving Repr, DecidableEq

/-- JS `String.prototype.trim`, modelled on the character list: drop
whitespace from both ends. -/
def jsTrim (s : String) : String :=
  String.mk (((s.data.dropWhile Char.isWhitespace).reverse.dropWhile
    Char.isWhitespace).reverse)

/-- JS truthiness of `str.trim()`: true iff the trimmed string is
non-empty. -/
def trimTruthy (s : String) : Bool := !(jsTrim s = "")

/-- `ProfileView.handlePostCreate` (`App.js` lines 234-241): with
non-blank title and content and user/userData present, fire `onCreatePost`
and clear both inputs immediately — before the asynchronous write
resolves; otherwise do nothing. The boolean reports whether the create was
initiated. -/
def handlePostCreate (user : Option UserRec) (userData : Option ProfileDoc)
    (f : ProfileFormState) : ProfileFormState × Bool :=
  if trimTruthy f.postTitle && trimTruthy f.postContent
      && user.isSome && userData.isSome then
    ({ f with postTitle := "", postContent := "" }, true)
  else
    (f, false)

/-- `ProfileView.handleProfileUpdate` (`App.js` lines 227-232): with a
non-blank display name, fire `onUpdateProfile`; the form state is never
modified. -/
def handleProfileUpdateForm (f : ProfileFormState) : ProfileFormState × Bool :=
  if trimTruthy f.displayName then (f, true) else (f, false)

/-- `PostDetailView.handleSubmit` (`App.js` lines 157-163): with non-blank
comment text and user/userData present, fire `onAddComment` and clear the
textarea immediately — before the asynchronous write resolves. Returns the
new comment text and whether the add was initiated. -/
def handleCommentSubmit (user : Option UserRec) (userData : Option ProfileDoc)
    (commentText : String) : String × Bool :=
  if trimTruthy commentText && user.isSome && userData.isSome then
    ("", true)
  else
    (commentText, false)

/-- `handleCreatePost` (`App.js` lines 469-486) with the asynchronous
`addDoc` outcome made explicit: success navigates Home; failure stores the
failure message; loading ends false either way. -/
def handleCreatePost (writeResult : Except String Unit) (s : AppState) : AppState :=
  match writeResult with
  | Except.ok _ => { s with error := none, view := "HOME", loading := false }
  | Except.error msg => { s with error := some msg, loading := false }

/-- `handleAddComment` (`App.js` lines 488-504): returns before touching
any state when no post is selected; otherwise issues the append and on
failure stores the message. The boolean reports whether an append write
was issued. -/
def handleAddComment (writeResult : Except String Unit) (s : AppState) :
    AppState × Bool :=
  match s.selectedPostId with
  | none => (s, false)
  | some _ =>
      match writeResult with
      | Except.ok _ => ({ s with error := none, loading := false }, true)
      | Except.error msg => ({ s with error := some msg, loading := false }, true)

/-- `handleUpdateProfile` (`App.js` lines 455-467): returns before
touching any state when no user is active; otherwise merge-writes the
display name and on failure stores the message. -/
def handleUpdateProfile (writeResult : Except String Unit) (s : AppState) :
    AppState × Bool :=
  match s.user with
  | none => (s, false)
  | some _ =>
      match writeResult with
      | Except.ok _ => ({ s with error := none, loading := false }, true)
      | Except.error msg => ({ s with error := some msg, loading := false }, true)

/-- The screen chosen by `renderView`. -/
inductive Screen where
  | loadingSpinner
  | signInPrompt
  | home
  | postDetail
  | profile
deriving Repr, DecidableEq

/-- `user && !user.isAnonymous` (`App.js` line 520). -/
def isRealUser (user : Option UserRec) : Bool :=
  match user with
  | some u => !u.isAnonymous
  | none => false

/-- `renderView` (`App.js` lines 513-548): loading until auth ready;
sign-in prompt unless a non-anonymous user is present; otherwise dispatch
on the view string, with Home as the default branch. -/
def renderView (s : AppState) : Screen :=
  if !s.isAuthReady then Screen.loadingSpinner
  else if !(isRealUser s.user) then Screen.signInPrompt
  else if s.view = "HOME" then Screen.home
  else if s.view = "POST_DETAIL" then Screen.postDetail
  else if s.view = "PROFILE" then Screen.profile
  else Screen.home

/-- A sample quiescent application state: anonymous startup, Home view,
nothing loaded. -/
def s0 : AppState :=
  { user := none
    userData := none
    isAuthReady := true
    view := "HOME"
    selectedPostId := none
    posts := []
    comments := []
    loading := false
    error := none }

/-- A sample federated (non-anonymous) user. -/
def u0 : UserRec := ⟨"u1", some "Alice", some "a@x.com", false⟩

/-- A sample anonymous user with no display name and no email. -/
def uAnon : UserRec := ⟨"anon1", none, none, true⟩

/-- A sample profile document matching `u0`. -/
def d0 : ProfileDoc := ⟨"Alice", some "a@x.com"⟩

/-- A sample filled profile-view form. -/
def f0 : ProfileFormState := ⟨"Alice", "T", "C"⟩

/-- A sample state with an active user and a selected post. -/
def s1 : AppState := { s0 with selectedPostId := some "p1", user := some u0 }

end FireBlog

namespace FireBlog

/-- Claim C1: every delivered posts snapshot wholesale-replaces the local
posts list with exactly that latest snapshot's documents (store ids merged
into fields), sorted descending by `createdAt` with a missing `createdAt`
treated as timestamp 0; the result is a function of the snapshot alone, so
it is never a mix of documents from two different snapshots. -/
theorem C1_posts_snapshot_replaces_sorted (snap : List PostDoc) (s t : AppState) :
    (onPostsSnapshot snap s).posts.Perm (snap.map materializePost) ∧
    List.Sorted postDescR (onPostsSnapshot snap s).posts ∧
    (onPostsSnapshot snap s).posts = (onPostsSnapshot snap t).posts := by
  refine ⟨?_, ?_, rfl⟩
  · exact List.perm_insertionSort postDescR (snap.map materializePost)
  · exact List.sorted_insertionSort postDescR (snap.map materializePost)

/-- Claim C2: every delivered comments snapshot replaces the local comment
list with that snapshot's documents sorted ascending by `createdAt`
(missing treated as 0); in particular a snapshot holding comments at
seconds 100 and 50 renders as [comment@50, comment@100]. -/
theorem C2_comments_snapshot_sorted_asc (snap : List CommentDoc) (s : AppState) :
    (onCommentsSnapshot snap s).comments.Perm (snap.map materializeComment) ∧
    List.Sorted commentAscR (onCommentsSnapshot snap s).comments ∧
    (onCommentsSnapshot
        [⟨"c1", ⟨"hello", "u1", "Alice", some ⟨100, 0⟩⟩⟩,
         ⟨"c2", ⟨"there", "u2", "Bob", some ⟨50, 0⟩⟩⟩] s).comments =
      [⟨"c2", "there", "u2", "Bob", some ⟨50, 0⟩⟩,
       ⟨"c1", "hello", "u1", "Alice", some ⟨100, 0⟩⟩] := by
  refine ⟨?_, ?_, ?_⟩
  · exact List.perm_insertionSort commentAscR (snap.map materializeComment)
  · exact List.sorted_insertionSort commentAscR (snap.map materializeComment)
  · simp only [onCommentsSnapshot]
    decide

/-- Claim C3: when the comments effect re-runs, a previous subscription
(if one exists) is cancelled exactly once before any new subscription is
established; with a selected post the trace is exactly
[cancel old, subscribe new]. When the selected post id is null the comment
list becomes empty, no subscription slot remains and no subscribe event is
emitted; navigating Home nulls the selected post id. -/
theorem C3_comment_subscription_lifecycle (prevSub : Option String)
    (ready : Bool) (sel : Option String) (k pid : String) (s : AppState) :
    (runCommentsEffect (some k) ready sel s).2.2.head? =
      some (SubEvent.cancel k) ∧
    ((runCommentsEffect (some k) ready sel s).2.2.filter isCancelEvent) =
      [SubEvent.cancel k] ∧
    ((runCommentsEffect none ready sel s).2.2.filter isCancelEvent) = [] ∧
    (ready = true → sel = some pid →
      (runCommentsEffect (some k) ready sel s).2.2 =
        [SubEvent.cancel k, SubEvent.subscribe pid]) ∧
    (sel = none →
      (runCommentsEffect prevSub ready sel s).2.1.comments = [] ∧
      (runCommentsEffect prevSub ready sel s).1 = none ∧
      ((runCommentsEffect prevSub ready sel s).2.2.filter isSubscribeEvent)
        = []) ∧
    (handleNavigate "HOME" s).selectedPostId = none := by
  refine ⟨?_, ?_, ?_, ?_, ?_, ?_⟩
  · cases ready <;> cases sel <;>
      simp [runCommentsEffect, commentsEffectBody]
  · cases ready <;> cases sel <;>
      simp [runCommentsEffect, commentsEffectBody, isCancelEvent]
  · cases ready <;> cases sel <;>
      simp [runCommentsEffect, commentsEffectBody, isCancelEvent]
  · rintro rfl rfl
    simp [runCommentsEffect, commentsEffectBody]
  · rintro rfl
    cases ready <;> cases prevSub <;>
      simp [runCommentsEffect, commentsEffectBody, isSubscribeEvent,
        isCancelEvent]
  · simp [handleNavigate]

/-- Witness for C3 at concrete inputs: changing the selection from `p1` to
`p2` yields exactly [cancel p1, subscribe p2]; clearing the selection
empties the comment list and leaves no active subscription. -/
theorem C3_comment_subscription_lifecycle_witness :
    ((runCommentsEffect (some "p1") true (some "p2") s0).2.2 =
      [SubEvent.cancel "p1", SubEvent.subscribe "p2"]) ∧
    (runCommentsEffect (some "p1") true none s0).2.1.comments = [] ∧
    (runCommentsEffect (some "p1") true none s0).1 = none :=
  ⟨(C3_comment_subscription_lifecycle (some "p1") true (some "p2") "p1" "p2"
      s0).2.2.2.1 rfl rfl,
   ((C3_comment_subscription_lifecycle (some "p1") true none "p1" "p2"
      s0).2.2.2.2.1 rfl).1,
   ((C3_comment_subscription_lifecycle (some "p1") true none "p1" "p2"
      s0).2.2.2.2.1 rfl).2.1⟩

/-- Counterexample to claim C4 at a concrete input: with title `T`,
content `C`, a signed-in user with profile data, and a failing write, the
post-compose form is cleared at submission time (title and content become
empty), so the initiating form inputs are NOT left untouched even though
the failure message is surfaced. -/
theorem C4_form_cleared_counterexample :
    (handlePostCreate (some u0) (some d0) f0).2 = true ∧
    (handleCreatePost (Except.error "boom") s1).error = some "boom" ∧
    (handlePostCreate (some u0) (some d0) f0).1.postTitle = "" ∧
    (handlePostCreate (some u0) (some d0) f0).1.postContent = "" ∧
    ¬ (handlePostCreate (some u0) (some d0) f0).1 = f0 := by decide

/-- Claim C4 as amended: when a write fails its message is surfaced as the
user-visible error; the profile-update form's display-name input is left
untouched, but the post-compose and comment forms clear their inputs at
submission time, regardless of the (asynchronous) write outcome, so those
inputs are not preserved for retry. -/
theorem C4_amended_write_failure (msg : String) (u : UserRec)
    (d : ProfileDoc) (f : ProfileFormState) (c : String) (s : AppState) :
    (handleCreatePost (Except.error msg) s).error = some msg ∧
    (s.selectedPostId.isSome = true →
      (handleAddComment (Except.error msg) s).1.error = some msg) ∧
    (s.user.isSome = true →
      (handleUpdateProfile (Except.error msg) s).1.error = some msg) ∧
    (handleProfileUpdateForm f).1 = f ∧
    ((handlePostCreate (some u) (some d) f).2 = true →
      (handlePostCreate (some u) (some d) f).1.postTitle = "" ∧
      (handlePostCreate (some u) (some d) f).1.postContent = "") ∧
    ((handleCommentSubmit (some u) (some d) c).2 = true →
      (handleCommentSubmit (some u) (some d) c).1 = "") := by
  refine ⟨rfl, ?_, ?_, ?_, ?_, ?_⟩
  · intro h
    rcases Option.isSome_iff_exists.mp h with ⟨x, hx⟩
    simp [handleAddComment, hx]
  · intro h
    rcases Option.isSome_iff_exists.mp h with ⟨x, hx⟩
    simp [handleUpdateProfile, hx]
  · unfold handleProfileUpdateForm
    split <;> rfl
  · unfold handlePostCreate
    split <;> simp_all
  · unfold handleCommentSubmit
    split <;> simp_all

/-- Witness for the amended C4 at concrete inputs: a failing comment
append and a failing profile write surface their messages, and a valid
post submission clears the title. -/
theorem C4_amended_write_failure_witness :
    (handleAddComment (Except.error "boom") s1).1.error = some "boom" ∧
    (handleUpdateProfile (Except.error "boom") s1).1.error = some "boom" ∧
    (handlePostCreate (some u0) (some d0) f0).1.postTitle = "" :=
  ⟨(C4_amended_write_failure "boom" u0 d0 f0 "hi" s1).2.1 rfl,
   (C4_amended_write_failure "boom" u0 d0 f0 "hi" s1).2.2.1 rfl,
   ((C4_amended_write_failure "boom" u0 d0 f0 "hi" s1).2.2.2.2.1
      (by decide)).1⟩

/-- Counterexample to claim C5 at a concrete input: for an anonymous
identity with no email, the default-profile merge write issued on an
absent document still contains an `email` field — with JS null as its
value — contradicting that no email field is written for an identity
without an email. -/
theorem C5_email_field_counterexample :
    uAnon.email = none ∧
    (onUserDocSnapshot uAnon DocSnap.missing s0).2 =
      some ⟨"anon1",
        [("displayName", FieldValue.str "Anonymous User"),
         ("email", FieldValue.null)]⟩ ∧
    ("email", FieldValue.null) ∈ defaultProfilePayload uAnon := by decide

/-- Claim C5 as amended: an existing profile snapshot replaces the local
profile with its fields and issues no write; an absent document leaves
local state alone and issues a merge write of the default profile
`{displayName: provided name or Anonymous User, email: the identity email}`
— where the `email` field is always included, with value null (not
omitted) for an identity without an email; concretely, for
Federated(u1, Alice, a@x.com) the payload is
[displayName Alice, email a@x.com] and a later snapshot of that document
makes it the local profile. -/
theorem C5_amended_profile_snapshot (u : UserRec) (f : ProfileDoc)
    (s : AppState) :
    (onUserDocSnapshot u (DocSnap.present f) s).1.userData = some f ∧
    (onUserDocSnapshot u (DocSnap.present f) s).2 = none ∧
    (onUserDocSnapshot u DocSnap.missing s).1 = s ∧
    (onUserDocSnapshot u DocSnap.missing s).2 =
      some ⟨u.uid, defaultProfilePayload u⟩ ∧
    (u.email = none →
      ("email", FieldValue.null) ∈ defaultProfilePayload u) ∧
    defaultProfilePayload u0 =
      [("displayName", FieldValue.str "Alice"),
       ("email", FieldValue.str "a@x.com")] ∧
    (onUserDocSnapshot u0 (DocSnap.present d0) s).1.userData = some d0 := by
  refine ⟨rfl, rfl, rfl, rfl, ?_, by decide, rfl⟩
  intro h
  simp [defaultProfilePayload, h]

/-- Witness for the amended C5 at concrete inputs: the anonymous identity
without an email gets an explicit null email field in the default write,
and the present snapshot for `u0` lands as the local profile. -/
theorem C5_amended_profile_snapshot_witness :
    uAnon.email = none ∧
    ("email", FieldValue.null) ∈ defaultProfilePayload uAnon ∧
    (onUserDocSnapshot u0 (DocSnap.present d0) s0).1.userData = some d0 :=
  ⟨rfl,
   (C5_amended_profile_snapshot uAnon d0 s0).2.2.2.2.1 rfl,
   (C5_amended_profile_snapshot uAnon d0 s0).2.2.2.2.2.2⟩

/-- Claim C6: after sign-out settles (the anonymous re-sign-in reported
back through the auth callback), the session is a non-null anonymous user,
the local profile is cleared, and the view is Home. -/
theorem C6_sign_out_lands_anonymous (tok : Option String) (ok : Bool)
    (anonUser : UserRec) (h : anonUser.isAnonymous = true) (s : AppState) :
    (handleSignOutAndSettle tok ok anonUser s).user = some anonUser ∧
    ((handleSignOutAndSettle tok ok anonUser s).user.map UserRec.isAnonymous)
      = some true ∧
    (handleSignOutAndSettle tok ok anonUser s).user ≠ none ∧
    (handleSignOutAndSettle tok ok anonUser s).userData = none ∧
    (handleSignOutAndSettle tok ok anonUser s).view = "HOME" := by
  simp [handleSignOutAndSettle, handleSignOut, authCallback, h]

/-- Witness for C6 at a concrete input: signing out from the quiescent
state with anonymous user `anon1`. -/
theorem C6_sign_out_lands_anonymous_witness :
    uAnon.isAnonymous = true ∧
    (handleSignOutAndSettle none false uAnon s0).user = some uAnon ∧
    (handleSignOutAndSettle none false uAnon s0).userData = none ∧
    (handleSignOutAndSettle none false uAnon s0).view = "HOME" :=
  ⟨rfl,
   (C6_sign_out_lands_anonymous none false uAnon rfl s0).1,
   (C6_sign_out_lands_anonymous none false uAnon rfl s0).2.2.2.1,
   (C6_sign_out_lands_anonymous none false uAnon rfl s0).2.2.2.2⟩

/-- Claim C7: when the bootstrap token exchange fails during startup
resolution, the callback falls back to an anonymous sign-in and the
stored error is left untouched (the failure is not surfaced); in every
resolution branch, `setIsAuthReady(true)` is the last event, so auth
ready becomes true only after resolution completes. -/
theorem C7_auth_bootstrap_fallback (tok : String) (t : Option String)
    (ok : Bool) (mu : Option UserRec) (s : AppState) :
    (authCallback (some tok) false none s).1.error = s.error ∧
    (authCallback (some tok) false none s).2 =
      [AuthEvent.signInToken false, AuthEvent.signInAnon,
        AuthEvent.setAuthReady] ∧
    (authCallback (some tok) false none s).1.isAuthReady = true ∧
    (authCallback t ok mu s).2.getLast? = some AuthEvent.setAuthReady ∧
    (authCallback t ok mu s).1.isAuthReady = true := by
  refine ⟨rfl, rfl, rfl, ?_, ?_⟩ <;>
    cases mu <;> cases t <;> cases ok <;> simp [authCallback]

/-- Claim C8: the posts-subscription error callback clears the loading
indicator, sets the user-visible error message, issues no
re-subscription, and leaves the previously displayed posts list (and the
rest of the local state) unchanged. -/
theorem C8_posts_error_preserves_list (s : AppState) :
    (onPostsError s).1.posts = s.posts ∧
    (onPostsError s).1.error = some "Failed to load posts." ∧
    (onPostsError s).1.loading = false ∧
    (onPostsError s).2 = [] ∧
    (onPostsError s).1.comments = s.comments ∧
    (onPostsError s).1.view = s.view ∧
    (onPostsError s).1.user = s.user :=
  ⟨rfl, rfl, rfl, rfl, rfl, rfl, rfl⟩

/-- Claim C9: the rendered screen depends only on (auth ready, user
identity, requested view); auth not ready shows the loading indicator; a
null or anonymous user shows the sign-in prompt; a real user gets the
requested screen, with Home for any unrecognized view string. -/
theorem C9_render_view_dispatch (s t : AppState) (u : UserRec)
    (hready : s.isAuthReady = t.isAuthReady) (huser : s.user = t.user)
    (hview : s.view = t.view) :
    renderView s = renderView t ∧
    (s.isAuthReady = false → renderView s = Screen.loadingSpinner) ∧
    (s.isAuthReady = true → s.user = none →
      renderView s = Screen.signInPrompt) ∧
    (s.isAuthReady = true → s.user = some u → u.isAnonymous = true →
      renderView s = Screen.signInPrompt) ∧
    (s.isAuthReady = true → s.user = some u → u.isAnonymous = false →
      ((s.view = "HOME" → renderView s = Screen.home) ∧
       (s.view = "POST_DETAIL" → renderView s = Screen.postDetail) ∧
       (s.view = "PROFILE" → renderView s = Screen.profile) ∧
       (s.view ≠ "HOME" → s.view ≠ "POST_DETAIL" → s.view ≠ "PROFILE" →
         renderView s = Screen.home))) := by
  refine ⟨?_, ?_, ?_, ?_, ?_⟩
  · simp [renderView, hready, huser, hview]
  · intro h
    simp [renderView, h]
  · intro h1 h2
    simp [renderView, isRealUser, h1, h2]
  · intro h1 h2 h3
    simp [renderView, isRealUser, h1, h2, h3]
  · intro h1 h2 h3
    exact ⟨fun hv => by simp [renderView, isRealUser, h1, h2, h3, hv],
      fun hv => by simp [renderView, isRealUser, h1, h2, h3, hv],
      fun hv => by simp [renderView, isRealUser, h1, h2, h3, hv],
      fun hv1 hv2 hv3 => by
        simp [renderView, isRealUser, h1, h2, h3, hv1, hv2, hv3]⟩

/-- Witness for C9 at concrete inputs: auth not ready shows the spinner;
a real user requesting the profile screen gets it; an unrecognized view
string falls back to Home. -/
theorem C9_render_view_dispatch_witness :
    renderView { s0 with isAuthReady := false } = Screen.loadingSpinner ∧
    renderView { s0 with user := some u0, view := "PROFILE" }
      = Screen.profile ∧
    renderView { s0 with user := some u0, view := "WAT" } = Screen.home :=
  ⟨(C9_render_view_dispatch { s0 with isAuthReady := false }
      { s0 with isAuthReady := false } u0 rfl rfl rfl).2.1 rfl,
   ((C9_render_view_dispatch { s0 with user := some u0, view := "PROFILE" }
      { s0 with user := some u0, view := "PROFILE" } u0 rfl rfl
      rfl).2.2.2.2 rfl rfl rfl).2.2.1 rfl,
   ((C9_render_view_dispatch { s0 with user := some u0, view := "WAT" }
      { s0 with user := some u0, view := "WAT" } u0 rfl rfl
      rfl).2.2.2.2 rfl rfl rfl).2.2.2 (by decide) (by decide) (by decide)⟩

/-- Claim C10: calling the add-comment handler with no selected post
issues no append write and leaves the entire local state unchanged;
likewise the update-profile handler with no active user. -/
theorem C10_guarded_handlers_frame (res1 res2 : Except String Unit)
    (s t : AppState) (hsel : s.selectedPostId = none)
    (huser : t.user = none) :
    handleAddComment res1 s = (s, false) ∧
    handleUpdateProfile res2 t = (t, false) := by
  constructor
  · simp [handleAddComment, hsel]
  · simp [handleUpdateProfile, huser]

/-- Witness for C10 at a concrete input: the quiescent state has no
selected post and no user, and both guarded handlers are no-ops on it. -/
theorem C10_guarded_handlers_frame_witness :
    s0.selectedPostId = none ∧ s0.user = none ∧
    handleAddComment (Except.error "x") s0 = (s0, false) ∧
    handleUpdateProfile (Except.error "y") s0 = (s0, false) :=
  ⟨rfl, rfl,
   (C10_guarded_handlers_frame (Except.error "x") (Except.error "y")
      s0 s0 rfl rfl).1,
   (C10_guarded_handlers_frame (Except.error "x") (Except.error "y")
      s0 s0 rfl rfl).2⟩

end FireBlog
